import Mathlib

/-!
Verification development for the mita autoscaling controller.

The Python sources under `mita/` are shallowly embedded below:

* `mita/util.py` — label-resolution engine (`get_key`, `is_stuck`,
  `match_node`, `from_label`, `from_offline_label`, `from_offline_node`,
  `from_offline_node_label`, `from_node_without_label`,
  `match_node_from_label`, `match_node_from_labels`,
  `match_node_from_label_expr`, `match_node_from_matrix_job_name`,
  `job_from_url`, `sanitize_string`).
* `mita/async.py` — the three reconciliation tasks (`check_idling`,
  `check_queue`, `check_orphaned`), modelled per pass with the external
  Jenkins / provider / registry collaborators passed in as parameters.
* `mita/providers/openstack.py` — `destroy_node` and
  `_wait_until_volume_available`.

Python strings are modelled as Lean `String`; the Python string
operations used by the code (`str.split()` on whitespace, `str.split(sep)`,
`in` (substring), `startswith`, `endswith`, `str.strip(c)`) are defined
below by structural recursion over the character list so that concrete
inputs evaluate inside the kernel. Python truthiness of an optional
string (`None` and `""` are falsy) is `pyT`. Machine-external effects
(Jenkins queries, HTTP posts, cloud driver calls) are parameters; the
value a pass computes (reports, creation requests, destroy decisions) is
returned as data.
-/

namespace Mita

/-- The whitespace characters of Python `str.split()` (ASCII subset). -/
def pyIsSpace (c : Char) : Bool :=
  c == ' ' || c == '\t' || c == '\n' || c == '\r' || c == '\x0b' || c == '\x0c'

/-- Helper for `pySplitS`: accumulates the current word (reversed). -/
def pySplitAux : List Char → List Char → List (List Char)
  | [], acc => if acc.isEmpty then [] else [acc.reverse]
  | c :: rest, acc =>
    if pyIsSpace c then
      if acc.isEmpty then pySplitAux rest [] else acc.reverse :: pySplitAux rest []
    else pySplitAux rest (c :: acc)

/-- Python `s.split()`: split on runs of whitespace, dropping empty tokens. -/
def pySplitS (s : String) : List String :=
  (pySplitAux s.data []).map String.mk

/-- Python `s.split(sep)` for a one-character separator. -/
def splitOnChar (sep : Char) : List Char → List (List Char)
  | [] => [[]]
  | c :: rest =>
    if c == sep then [] :: splitOnChar sep rest
    else
      match splitOnChar sep rest with
      | [] => [[c]]
      | h :: t => (c :: h) :: t

/-- String wrapper for `splitOnChar`. -/
def splitOnCharS (sep : Char) (s : String) : List String :=
  (splitOnChar sep s.data).map String.mk

/-- Python `s.split(sep)` for a two-character separator (leftmost-first,
non-overlapping, exactly as CPython scans). -/
def splitOnPair (a b : Char) : List Char → List (List Char)
  | [] => [[]]
  | [c] => [[c]]
  | c :: d :: rest =>
    if c == a && d == b then [] :: splitOnPair a b rest
    else
      match splitOnPair a b (d :: rest) with
      | [] => [[c]]
      | h :: t => (c :: h) :: t

/-- Python `s.split("__")`. -/
def splitDunderS (s : String) : List String :=
  (splitOnPair '_' '_' s.data).map String.mk

/-- Python `s.split("&&")`. -/
def splitAmpAmpS (s : String) : List String :=
  (splitOnPair '&' '&' s.data).map String.mk

/-- Python `sub in s` on character lists. -/
def infixOfL (sub : List Char) : List Char → Bool
  | [] => sub.isEmpty
  | c :: rest => sub.isPrefixOf (c :: rest) || infixOfL sub rest

/-- Python `s.startswith(pre)`. -/
def startsWithS (s pre : String) : Bool := pre.data.isPrefixOf s.data

/-- Python `s.endswith(suf)`. -/
def endsWithS (s suf : String) : Bool := suf.data.isSuffixOf s.data

/-- Python `sub in s`. -/
def infixOfS (sub s : String) : Bool := infixOfL sub.data s.data

/-- Python `s.strip(c)` on character lists: drop `c` from both ends. -/
def stripChar (c : Char) (l : List Char) : List Char :=
  ((l.dropWhile (· == c)).reverse.dropWhile (· == c)).reverse

/-- Python truthiness of an optional string: `None` and `""` are falsy. -/
def pyT (o : Option String) : Bool := !(o.getD "" == "")

/-- Python `a or b` on optional strings (left operand wins when truthy). -/
def pyOr (a b : Option String) : Option String := if pyT a then a else b

/-- The configured node catalog (`pecan.conf.nodes`): an insertion-ordered
map from node-type key to its label list, as `util.get_nodes()` returns it. -/
abbrev Catalog := List (String × List String)

/-- `util.sanitize_string` (with the default `strip=False`, which is how
every call site in the embedded code invokes it): removes every U+2018 and
U+2019 character. Python does two `str.replace(c, '')` passes, which on
one-character patterns is exactly a filter. -/
def sanitize_string (s : String) : String :=
  String.mk (s.data.filter fun c => !(c == '‘' || c == '’'))

/-- `util.job_from_url`: `url.strip('/').split('/')[-1]`. The split result
is always non-empty, so the `[-1]` index never fails. -/
def job_from_url (url : String) : String :=
  (splitOnCharS '/' (String.mk (stripChar '/' url.data))).getLastD ""

/-- `util.get_key`: `None` for a falsy key; the key itself when present
verbatim; with `fallback`, the first catalog key that is a substring
(Python `name in key`) of the lookup key. -/
def get_key (d : Catalog) (key : String) (fallback : Bool) : Option String :=
  if key = "" then none
  else if d.any (fun p => p.1 == key) then some key
  else if fallback then (d.find? fun p => infixOfS p.1 key).map Prod.fst
  else none

/-- `util.is_stuck`, pattern 1: `string.startswith('Waiting for')`. -/
def busy_summary (s : String) : Bool := startsWithS s "Waiting for"

/-- `util.is_stuck`, pattern 2: `string.startswith('All nodes of label')`. -/
def offline_label_summary (s : String) : Bool := startsWithS s "All nodes of label"

/-- `util.is_stuck`, pattern 3: `string.endswith('is offline')`. -/
def offline_node_summary (s : String) : Bool := endsWithS s "is offline"

/-- `util.is_stuck`, pattern 4: `string.startswith('There are no nodes')`. -/
def offline_node_label_summary (s : String) : Bool := startsWithS s "There are no nodes"

/-- `util.is_stuck`, pattern 5: `u"doesn’t have label" in string`. -/
def node_does_not_have_label (s : String) : Bool := infixOfS "doesn’t have label" s

/-- `util.is_stuck`: loops over the five pattern checks, returning `True`
on the first hit and `False` when none hit. -/
def is_stuck (s : String) : Bool :=
  [busy_summary, offline_label_summary, offline_node_summary,
   offline_node_label_summary, node_does_not_have_label].any fun f => f s

/-- `util.match_node_from_label`: the first configured node whose label
list contains the label. -/
def match_node_from_label (cat : Catalog) (label : String) : Option String :=
  (cat.find? fun p => p.2.contains label).map Prod.fst

/-- The inner `labels_exist` predicate of `util.match_node_from_labels`:
all required labels occur in the node's configured label list. -/
def labels_exist (labels : List String) (config : List String) : Bool :=
  labels.all fun l => config.contains l

/-- `util.match_node_from_labels`: `None` on a falsy label list; otherwise
the first configured node whose label list contains every required label. -/
def match_node_from_labels (cat : Catalog) (labels : List String) : Option String :=
  if labels.isEmpty then none
  else (cat.find? fun p => labels_exist labels p.2).map Prod.fst

/-- Modelled from the spec: `mita.label_eval.matching_nodes` is imported by
`util.match_node_from_label_expr` but `mita/label_eval.py` is not under
`src/`. Per the spec (§4.1 step 4 and §8), a node type matches a label
expression iff every `&&`-joined label of the expression is present in the
node type's configured label set, and all matching node types are produced
in catalog iteration order. -/
def matching_nodes (expr : String) (cat : Catalog) : List String :=
  (cat.filter fun p => (splitAmpAmpS expr).all fun l => p.2.contains l).map Prod.fst

/-- `util.match_node_from_label_expr`: `None` on a falsy expression,
otherwise the first entry of `matching_nodes` (the source's
`matches[0] if matches else None`). -/
def match_node_from_label_expr (cat : Catalog) (expr : String) : Option String :=
  if expr = "" then none
  else (matching_nodes expr cat).head?

/-- External collaborators consulted during label resolution, passed in as
parameters: `nodeLabels name` is what `util.get_node_labels` obtains from
Jenkins (its XML parse, `[]` when the node is unknown); `jobInfoOk` is
whether `conn.get_job_info` succeeds; `jobLabelExpr url` is the
`assignedNode` label expression `util.match_node_from_job_config` fetches
from the job's `config.xml` (`none` when the fetch or the parse fails). -/
structure ResolveEnv where
  nodeLabels : String → List String
  jobInfoOk : String → Bool
  jobLabelExpr : String → Option String

/-- `util.from_label`: take the raw string's last whitespace token
(`IndexError` → `None`), sanitize it, then try in order: catalog key of
the token, catalog key of its single-label match, catalog key of the
token with the `__` suffix stripped, label-expression evaluation, and
finally a label-set match of the Jenkins-reported labels of the token. -/
def from_label (env : ResolveEnv) (cat : Catalog) (s : String) : Option String :=
  match (pySplitS s).getLast? with
  | none => none
  | some tok =>
    let nol := sanitize_string tok
    let nfl := match_node_from_label cat nol
    let m := pyOr (get_key cat nol true) (nfl.bind fun k => get_key cat k true)
    let m2 := if m = none then get_key cat ((splitDunderS nol).headD "") true else m
    if m2 = none then
      match match_node_from_label_expr cat nol with
      | some mn => if mn == "" then match_node_from_labels cat (env.nodeLabels nol) else some mn
      | none => match_node_from_labels cat (env.nodeLabels nol)
    else m2

/-- `util.from_offline_node_label`: sanitize, take the last whitespace
token as the label, try a single-label match, else evaluate it as a label
expression (the reassigned `matched_node` is returned either way). The
`[-1]` index is in range for every string the dispatcher sends here. -/
def from_offline_node_label (cat : Catalog) (s : String) : Option String :=
  match (pySplitS (sanitize_string s)).getLast? with
  | none => none
  | some label =>
    match match_node_from_label cat label with
    | some m => some m
    | none => match_node_from_label_expr cat label

/-- `util.from_offline_label`: sanitize, take the third-from-last
whitespace token as the label, try a single-label match, else fall back to
`from_offline_node_label` on the bare label. The `[-3]` index is in range
for every string the dispatcher sends here. -/
def from_offline_label (cat : Catalog) (s : String) : Option String :=
  let parts := pySplitS (sanitize_string s)
  match (if 3 ≤ parts.length then parts.get? (parts.length - 3) else none) with
  | none => none
  | some label =>
    let m := match_node_from_label cat label
    if pyT m then m else from_offline_node_label cat label

/-- `util.from_offline_node`: the node is the first whitespace token; try
a catalog-key match, then the token with its `__` suffix stripped. -/
def from_offline_node (cat : Catalog) (s : String) : Option String :=
  match (pySplitS s).head? with
  | none => none
  | some node =>
    match get_key cat node true with
    | some m => some m
    | none =>
      let n2 := (splitDunderS node).headD ""
      if cat.any (fun p => p.1 == n2) then some n2 else none

/-- The scanning loop of `util.from_node_without_label`: for each
`;`-separated clause containing the marker, resolve it via `from_label`
and return the first truthy result. -/
def fnwl_scan (env : ResolveEnv) (cat : Catalog) : List String → Option String
  | [] => none
  | m :: rest =>
    if infixOfS "doesn’t have label" m then
      let n := from_label env cat m
      if pyT n then n else fnwl_scan env cat rest
    else fnwl_scan env cat rest

/-- `util.from_node_without_label`: split on `;` and scan the clauses. -/
def from_node_without_label (env : ResolveEnv) (cat : Catalog) (s : String) : Option String :=
  fnwl_scan env cat (splitOnCharS ';' s)

/-- The five resolver tags of `util.match_node`. -/
inductive ProcTag where
  | busy
  | offlineLabel
  | offlineNode
  | offlineNodeLabel
  | withoutLabel
deriving DecidableEq

/-- The dispatch of `util.match_node`: the first of the five textual
patterns to match, in source order, or `none`. -/
def matchProcessor (s : String) : Option ProcTag :=
  if startsWithS s "Waiting for" then some ProcTag.busy
  else if startsWithS s "All nodes of label" then some ProcTag.offlineLabel
  else if endsWithS s "is offline" then some ProcTag.offlineNode
  else if startsWithS s "There are no nodes" then some ProcTag.offlineNodeLabel
  else if infixOfS "doesn’t have label" s then some ProcTag.withoutLabel
  else none

/-- `util.match_node`: run the matched resolver, `None` when no pattern
matches. -/
def match_node (env : ResolveEnv) (cat : Catalog) (s : String) : Option String :=
  match matchProcessor s with
  | some ProcTag.busy => from_label env cat s
  | some ProcTag.offlineLabel => from_offline_label cat s
  | some ProcTag.offlineNode => from_offline_node cat s
  | some ProcTag.offlineNodeLabel => from_offline_node_label cat s
  | some ProcTag.withoutLabel => from_node_without_label env cat s
  | none => none

/-- `util.match_node_from_job_config` given the externally fetched
`assignedNode` expression: evaluate it as a label expression. A failed
fetch or a missing tag is `none` (the function catches those and returns
`None`). -/
def match_node_from_job_config (env : ResolveEnv) (cat : Catalog) (job_url : String) :
    Option String :=
  match env.jobLabelExpr job_url with
  | none => none
  | some expr => match_node_from_label_expr cat expr

/-- Result of a Python computation that can raise an uncaught exception. -/
inductive ExnOr (α : Type) where
  | ok (val : α)
  | exn
deriving DecidableEq

/-- `util.match_node_from_matrix_job_name`: split the job name on `,`,
take the text after `=` of each part (`label.split("=")[1]` — an
`IndexError` when a part has no `=`, modelled as `ExnOr.exn`), deduplicate
(`list(set(...))`; the order does not affect `match_node_from_labels`),
and match the label set. -/
def match_node_from_matrix_job_name (cat : Catalog) (job_name : String) :
    ExnOr (Option String) :=
  let parts := splitOnCharS ',' job_name
  if parts.all (fun p => decide (2 ≤ (splitOnCharS '=' p).length)) then
    ExnOr.ok (match_node_from_labels cat
      ((parts.map fun p => (splitOnCharS '=' p).getD 1 "").dedup))
  else ExnOr.exn

/-- The report `async.check_idling` posts to the mita API for a node:
`POST .../nodes/<uuid>/idle` or `POST .../nodes/<uuid>/active`. -/
inductive IdleReport where
  | idle
  | active
deriving DecidableEq

/-- One pass of `async.check_idling`, given the Jenkins node list as
`(name, idle-flag)` pairs: keep the nodes this service added (name splits
on `__` into more than one part), and for each one post `idle` when its
idle flag is truthy and `active` otherwise, addressed by the uuid
(`name.split('__')[-1]`). The returned list is the posts, in order. -/
def check_idling (ciNodes : List (String × Bool)) : List (String × IdleReport) :=
  (ciNodes.filter fun n => decide (1 < (splitDunderS n.1).length)).map fun n =>
    ((splitDunderS n.1).getLastD "", if n.2 then IdleReport.idle else IdleReport.active)

/-- A Jenkins queue entry as `async.check_queue` consumes it: the nullable
`why` reason and the originating job's URL. -/
structure Task where
  why : Option String
  url : String
deriving DecidableEq

/-- The per-task resolution of `async.check_queue`: skip tasks with no
reason; for a stuck reason run `util.match_node`; when that is falsy,
fetch the job config when `get_job_info` succeeds, otherwise parse the job
name as a matrix job (which can raise `IndexError`); a task contributes a
node name only when the final name is truthy. -/
def resolve_task (env : ResolveEnv) (cat : Catalog) (t : Task) : ExnOr (Option String) :=
  match t.why with
  | none => ExnOr.ok none
  | some why =>
    if is_stuck why then
      let n := match_node env cat why
      if pyT n then ExnOr.ok n
      else
        let job_name := job_from_url t.url
        match (if env.jobInfoOk job_name then
                 ExnOr.ok (match_node_from_job_config env cat t.url)
               else match_node_from_matrix_job_name cat job_name) with
        | ExnOr.exn => ExnOr.exn
        | ExnOr.ok n2 => if pyT n2 then ExnOr.ok n2 else ExnOr.ok none
    else ExnOr.ok none

/-- The `needed_nodes` counter update of `async.check_queue`: increment an
existing entry, else append a fresh entry with count 1 (Python dicts keep
insertion order). -/
def bump (m : List (String × Nat)) (k : String) : List (String × Nat) :=
  if m.any (fun p => p.1 == k) then
    m.map fun p => if p.1 == k then (p.1, p.2 + 1) else p
  else m ++ [(k, 1)]

/-- The scanning loop of `async.check_queue` over the queue snapshot,
accumulating `needed_nodes`; an uncaught exception aborts the pass. -/
def check_queue_tasks (env : ResolveEnv) (cat : Catalog) :
    List Task → List (String × Nat) → ExnOr (List (String × Nat))
  | [], acc => ExnOr.ok acc
  | t :: rest, acc =>
    match resolve_task env cat t with
    | ExnOr.exn => ExnOr.exn
    | ExnOr.ok none => check_queue_tasks env cat rest acc
    | ExnOr.ok (some k) => check_queue_tasks env cat rest (bump acc k)

/-- One pass of `async.check_queue`, given the queue snapshot (`none`
models a falsy non-list `get_queue_info` result): the value is the list
of creation requests posted after the scan, one per `needed_nodes` entry
carrying its aggregate count; `none` means the pass died on an uncaught
exception before posting anything. -/
def check_queue (env : ResolveEnv) (cat : Catalog) (snapshot : Option (List Task)) :
    Option (List (String × Nat)) :=
  match snapshot with
  | none => some []
  | some tasks =>
    match check_queue_tasks env cat tasks [] with
    | ExnOr.ok needed => some needed
    | ExnOr.exn => none

/-- A registry record (`models.Node`) as `async.check_orphaned` reads it:
the nullable Jenkins name, the provider-assigned name, and the creation
timestamp (seconds, UTC; `created ≤ now` for every observed record). -/
structure RegNode where
  jenkins_name : Option String
  cloud_name : String
  created : Nat
deriving DecidableEq

/-- Outcome of the cloud driver's own `destroy_node` call on a node that
was found by name: a truthy result, a falsy result, or an exception. The
driver (libcloud) never raises mita's `CloudNodeNotFound`, which only
`providers.openstack.destroy_node` itself raises. -/
inductive DriverRes where
  | ok
  | falsy
  | raise
deriving DecidableEq

/-- Outcome of `providers.openstack.destroy_node`: normal return,
`CloudNodeNotFound`, the `RuntimeError` for a falsy driver result, or a
re-raised driver exception. -/
inductive DestroyRes where
  | success
  | notFound
  | runtimeErr
  | driverErr
deriving DecidableEq

/-- `providers.openstack.destroy_node`: scan the provider's node list for
the first node with the requested name and destroy it (re-raising driver
failures); when no node of that name exists, raise `CloudNodeNotFound`.
(`destroy_volume` after a successful destroy is outside the registry
decision modelled here.) -/
def destroy_node (provNodes : List String) (driver : String → DriverRes) (name : String) :
    DestroyRes :=
  match provNodes.find? (fun n => n == name) with
  | some n =>
    match driver n with
    | DriverRes.ok => DestroyRes.success
    | DriverRes.falsy => DestroyRes.runtimeErr
    | DriverRes.raise => DestroyRes.driverErr
  | none => DestroyRes.notFound

/-- External collaborators of `async.check_orphaned`: Jenkins
`node_exists`, the provider's current node names, and the driver-level
destroy outcome. -/
structure OrphanEnv where
  nodeExists : String → Bool
  provNodes : List String
  driver : String → DriverRes

/-- The Jenkins health check of `async.check_orphaned`: a truthy
`jenkins_name` that `conn.node_exists` confirms. -/
def jenkinsHealthy (env : OrphanEnv) (node : RegNode) : Bool :=
  match node.jenkins_name with
  | some jn => !(jn == "") && env.nodeExists jn
  | none => false

/-- Python `(now - created).seconds` for `created ≤ now`: `timedelta`
normalises to days plus a seconds component, so `.seconds` is the age
modulo 86400 — not the total age. -/
def tdSeconds (now created : Nat) : Nat := (now - created) % 86400

/-- Whether `async.check_orphaned` requests provider destruction of a
registry node: not healthy in Jenkins, and `difference.seconds > 900`. -/
def orphanDestroyRequested (env : OrphanEnv) (now : Nat) (node : RegNode) : Bool :=
  !(jenkinsHealthy env node) && decide (900 < tdSeconds now node.created)

/-- What one `async.check_orphaned` iteration does to one registry node. -/
inductive OrphanEffect where
  | keep
  | destroyed
  | deletedRecord
  | errorKeep
deriving DecidableEq

/-- One `async.check_orphaned` iteration: skip healthy nodes and nodes
whose `difference.seconds` is within the 900-second grace value; otherwise
request provider destruction, deleting the registry record exactly on
`CloudNodeNotFound`, and merely logging (keeping the record) on success or
any other error. -/
def orphanStep (env : OrphanEnv) (now : Nat) (node : RegNode) : OrphanEffect :=
  if jenkinsHealthy env node then OrphanEffect.keep
  else if 900 < tdSeconds now node.created then
    match destroy_node env.provNodes env.driver node.cloud_name with
    | DestroyRes.success => OrphanEffect.destroyed
    | DestroyRes.notFound => OrphanEffect.deletedRecord
    | DestroyRes.runtimeErr => OrphanEffect.errorKeep
    | DestroyRes.driverErr => OrphanEffect.errorKeep
  else OrphanEffect.keep

/-- A libcloud volume state: the API reports strings, OVH reports
integers. -/
inductive VolState where
  | str (s : String)
  | int (n : Nat)
deriving DecidableEq

/-- The `ok_states` list of `providers.openstack._wait_until_volume_available`:
`['creating', 3]`, plus `'in_use'` when `maybe_in_use` is set. -/
def okStates (maybe_in_use : Bool) : List VolState :=
  if maybe_in_use then [VolState.str "creating", VolState.int 3, VolState.str "in_use"]
  else [VolState.str "creating", VolState.int 3]

/-- The polling loop of `_wait_until_volume_available`: while the state is
an `ok_state`, sleep and re-fetch the volume (`states (tries+1)` is the
state the `(tries+1)`-th poll observes), stopping when `tries` exceeds 10
or the re-fetched volume is `'notfound'`. Returns the number of polls
performed and the last observed state. -/
def waitGo (states : Nat → VolState) (ok : List VolState) (tries : Nat) (cur : VolState) :
    Nat × VolState :=
  if cur ∈ ok then
    let nxt := states (tries + 1)
    if h : 10 < tries + 1 then (tries + 1, nxt)
    else if nxt = VolState.str "notfound" then (tries + 1, nxt)
    else waitGo states ok (tries + 1) nxt
  else (tries, cur)
termination_by 11 - tries
decreasing_by omega

/-- `providers.openstack._wait_until_volume_available`: run the polling
loop from the volume's current state and return `(polls performed, result)`;
the Python function always returns `True`, logging and continuing anyway
when the volume never became available. -/
def wait_until_volume_available (v0 : VolState) (states : Nat → VolState)
    (maybe_in_use : Bool) : Nat × Bool :=
  ((waitGo states (okStates maybe_in_use) 0 v0).1, true)

/-- A resolution environment whose external collaborators all answer
negatively: Jenkins knows no labels, no job info, no job config. -/
def env0 : ResolveEnv :=
  { nodeLabels := fun _ => [], jobInfoOk := fun _ => false, jobLabelExpr := fun _ => none }

/-- An orphan-reaper environment with an empty provider and a Jenkins
instance that recognises nothing. -/
def oenv0 : OrphanEnv :=
  { nodeExists := fun _ => false, provNodes := [], driver := fun _ => DriverRes.ok }

/-- A registry node that never joined Jenkins, created at epoch second 0. -/
def node0 : RegNode := { jenkins_name := none, cloud_name := "mita-node", created := 0 }

/-- A one-entry catalog as in the spec's worked examples. -/
def cat8 : Catalog := [("centos6", ["centos6", "x86_64"])]

/-- A queue task whose busy reason resolves directly to `centos6`. -/
def t8a : Task :=
  { why := some "Waiting for next available executor on centos6",
    url := "http://jenkins.example.com/job/goodjob" }

/-- A queue task with a stuck reason that resolves to nothing, whose job
is unknown to Jenkins and whose name is not of the matrix `KEY=VALUE`
form. -/
def t8b : Task :=
  { why := some "wigwam is offline",
    url := "http://jenkins.example.com/job/myjob" }

/-! ## Helper lemmas -/

theorem get_key_self (d : Catalog) (k : String) (h : k ≠ "")
    (hm : (d.any fun p => p.1 == k) = true) (fb : Bool) : get_key d k fb = some k := by
  simp [get_key, h, hm]

theorem head?_filter_map {α β : Type} (p : α → Bool) (f : α → β) (l : List α) :
    ((l.filter p).map f).head? = (l.find? p).map f := by
  induction l with
  | nil => rfl
  | cons x xs ih =>
    by_cases hx : p x
    · simp [List.filter_cons, hx]
    · simp [List.filter_cons, hx, ih]

theorem find?_beq_eq_none (l : List String) (name : String) :
    (l.find? (fun n => n == name) = none) ↔ name ∉ l := by
  rw [List.find?_eq_none]
  constructor
  · intro h hmem
    exact absurd (beq_self_eq_true name) (by simpa using h name hmem)
  · intro h x hx hbeq
    rw [beq_iff_eq] at hbeq
    exact h (hbeq ▸ hx)

/-! ## Claims -/

/-- Claim C1 (code_bug). The orphan reaper is claimed to request provider
destruction exactly when the node's age `now - created` exceeds the
900-second grace period, "for all such nodes regardless of how old they
are". The code computes `(now - node.created).seconds`, the `timedelta`
seconds component, which is the age modulo 86400: the claim's own 901 s /
899 s examples behave as stated, but a node aged 86401 s (one day and one
second) yields a seconds component of 1 and is skipped, contradicting the
claim and the code's own comment ("If it is less than 15 minutes then
don't do anything"). -/
theorem c1_orphan_grace_wraps_after_one_day :
    orphanDestroyRequested oenv0 901 node0 = true ∧
    orphanDestroyRequested oenv0 899 node0 = false ∧
    86401 - node0.created > 900 ∧
    orphanDestroyRequested oenv0 86401 node0 = false ∧
    orphanStep oenv0 86401 node0 = OrphanEffect.keep := by decide

/-- Claim C2 (confirmed). When the orphan reaper proceeds to destruction
(node unhealthy in Jenkins and past the grace check), the provider's
`destroy_node` raises `CloudNodeNotFound` exactly when no node of that
name exists at the provider, and the reaper deletes the registry record
exactly in that case — a successful destroy or any other error keeps the
record for the next pass. -/
theorem c2_destroy_not_found_deletes_record (env : OrphanEnv) (now : Nat) (node : RegNode)
    (hH : jenkinsHealthy env node = false)
    (hAge : 900 < tdSeconds now node.created) :
    (destroy_node env.provNodes env.driver node.cloud_name = DestroyRes.notFound ↔
      node.cloud_name ∉ env.provNodes)
  ∧ (orphanStep env now node = OrphanEffect.deletedRecord ↔
      node.cloud_name ∉ env.provNodes) := by
  cases hf : env.provNodes.find? (fun n => n == node.cloud_name) with
  | none =>
    have hnotin : node.cloud_name ∉ env.provNodes := (find?_beq_eq_none _ _).mp hf
    exact ⟨by simp [destroy_node, hf, hnotin],
      by simp [orphanStep, hH, hAge, destroy_node, hf, hnotin]⟩
  | some n =>
    have hin : node.cloud_name ∈ env.provNodes := by
      have h1 := List.find?_some hf
      have h2 := List.mem_of_find?_eq_some hf
      rw [beq_iff_eq] at h1
      exact h1 ▸ h2
    cases hdr : env.driver n <;>
      exact ⟨by simp [destroy_node, hf, hdr, hin],
        by simp [orphanStep, hH, hAge, destroy_node, hf, hdr, hin]⟩

theorem c2_witness :
    (destroy_node oenv0.provNodes oenv0.driver node0.cloud_name = DestroyRes.notFound ↔
      node0.cloud_name ∉ oenv0.provNodes)
  ∧ (orphanStep oenv0 1000 node0 = OrphanEffect.deletedRecord ↔
      node0.cloud_name ∉ oenv0.provNodes) :=
  c2_destroy_not_found_deletes_record oenv0 1000 node0 (by decide) (by decide)

/-- Claim C3 (corrected): refutation of the claim as stated. The claim
quantifies over every busy-reason string whose sanitized last token
exactly equals a catalog key; a token consisting of a single curly quote
sanitizes to the empty string, and with `""` configured as a catalog key
all of the claim's premises hold, yet `get_key` rejects falsy lookup keys
and the whole fallback chain yields `None` — the busy resolver does not
return the matching key `""`. -/
theorem c3_counterexample :
    startsWithS "Waiting for ’" "Waiting for" = true ∧
    (pySplitS "Waiting for ’").getLast? = some "’" ∧
    sanitize_string "’" = "" ∧
    ([("", ["l"])] : Catalog).any (fun p => p.1 == "") = true ∧
    from_label env0 [("", ["l"])] "Waiting for ’" = none ∧
    match_node env0 [("", ["l"])] "Waiting for ’" = none := by decide

/-- Claim C3 (corrected): the amended claim. For every busy-reason string
whose last whitespace-delimited token sanitizes to a NON-EMPTY string that
exactly equals a key of the catalog, the busy resolver (`from_label`, as
dispatched by `match_node`) returns that key. -/
theorem c3_busy_trailing_token (env : ResolveEnv) (cat : Catalog) (s tok k : String)
    (hs : startsWithS s "Waiting for" = true)
    (h1 : (pySplitS s).getLast? = some tok)
    (h2 : sanitize_string tok = k)
    (h3 : k ≠ "")
    (h4 : (cat.any fun p => p.1 == k) = true) :
    from_label env cat s = some k ∧ match_node env cat s = some k := by
  have hg : get_key cat k true = some k := get_key_self cat k h3 h4 true
  have hfl : from_label env cat s = some k := by
    unfold from_label
    rw [h1]
    simp [h2, pyOr, pyT, h3, hg]
  refine ⟨hfl, ?_⟩
  unfold match_node matchProcessor
  simp [hs, hfl]

theorem c3_witness :
    from_label env0 [("centos6", ["x86_64"])] "Waiting for next available executor on centos6" =
      some "centos6" ∧
    match_node env0 [("centos6", ["x86_64"])] "Waiting for next available executor on centos6" =
      some "centos6" :=
  c3_busy_trailing_token env0 [("centos6", ["x86_64"])] _ "centos6" "centos6"
    (by decide) (by decide) (by decide) (by decide) (by decide)

/-- Claim C4 (confirmed, against the spec-modelled `matching_nodes`). For
a multi-label expression that splits on `&&` into `[a, b]`, resolution
succeeds iff some catalog entry's label set contains both `a` and `b`,
and the returned identifier is the first qualifying key in catalog
iteration order. -/
theorem c4_multilabel_expression (cat : Catalog) (expr a b : String)
    (h : splitAmpAmpS expr = [a, b]) :
    ((match_node_from_label_expr cat expr).isSome = true ↔
      ∃ p ∈ cat, a ∈ p.2 ∧ b ∈ p.2)
  ∧ match_node_from_label_expr cat expr =
      (cat.find? fun p => p.2.contains a && p.2.contains b).map Prod.fst := by
  have hne : expr ≠ "" := by
    intro he
    subst he
    simp [splitAmpAmpS, splitOnPair] at h
  have hmain : match_node_from_label_expr cat expr =
      (cat.find? fun p => p.2.contains a && p.2.contains b).map Prod.fst := by
    unfold match_node_from_label_expr matching_nodes
    rw [if_neg hne, h]
    simp only [List.all_cons, List.all_nil, Bool.and_true]
    exact head?_filter_map _ _ _
  refine ⟨?_, hmain⟩
  rw [hmain]
  constructor
  · intro hS
    cases hf : cat.find? (fun p => p.2.contains a && p.2.contains b) with
    | none => rw [hf] at hS; simp at hS
    | some p =>
      have hp := List.find?_some hf
      have hmem := List.mem_of_find?_eq_some hf
      simp only [Bool.and_eq_true, List.contains, List.elem_iff] at hp
      exact ⟨p, hmem, hp⟩
  · rintro ⟨p, hmem, ha, hb⟩
    have hS : (cat.find? fun p => p.2.contains a && p.2.contains b).isSome := by
      rw [List.find?_isSome]
      exact ⟨p, hmem, by simp [List.contains, List.elem_iff, ha, hb]⟩
    simpa using hS

theorem c4_witness :
    ((match_node_from_label_expr [("n1", ["a", "b", "c"])] "a&&b").isSome = true ↔
      ∃ p ∈ ([("n1", ["a", "b", "c"])] : Catalog), "a" ∈ p.2 ∧ "b" ∈ p.2)
  ∧ match_node_from_label_expr [("n1", ["a", "b", "c"])] "a&&b" =
      (([("n1", ["a", "b", "c"])] : Catalog).find? fun p =>
        p.2.contains "a" && p.2.contains "b").map Prod.fst :=
  c4_multilabel_expression [("n1", ["a", "b", "c"])] "a&&b" "a" "b" (by decide)

/-- Claim C5 (confirmed). For a non-empty lookup key, `get_key` returns
the key unchanged when present verbatim; otherwise, with fallback enabled,
it returns the first catalog key that is a substring of the lookup key —
in particular `"centos6"` for lookup `"10.0.0.1__centos6__huge"`. -/
theorem c5_get_key_lookup (d : Catalog) (key : String) (h : key ≠ "") :
    ((d.any fun p => p.1 == key) = true → get_key d key true = some key)
  ∧ ((d.any fun p => p.1 == key) = false →
      get_key d key true = (d.find? fun p => infixOfS p.1 key).map Prod.fst)
  ∧ get_key [("centos6", ["x86_64"])] "10.0.0.1__centos6__huge" true = some "centos6" := by
  refine ⟨fun hm => get_key_self d key h hm true, fun hm => ?_, by decide⟩
  simp [get_key, h, hm]

theorem c5_witness : get_key [("a", ["x"])] "a" true = some "a" :=
  (c5_get_key_lookup [("a", ["x"])] "a" (by decide)).1 (by decide)

/-- Claim C6 (confirmed). `is_stuck` is true exactly when one of the five
textual patterns matches, the dispatcher `match_node` selects a resolver
for exactly the same strings (`matchProcessor` is some iff `is_stuck`),
and when no pattern matches the dispatcher returns no result. -/
theorem c6_stuck_patterns_and_dispatch (s : String) :
    (is_stuck s = (matchProcessor s).isSome)
  ∧ (is_stuck s = true ↔
      (startsWithS s "Waiting for" = true ∨ startsWithS s "All nodes of label" = true ∨
       endsWithS s "is offline" = true ∨ startsWithS s "There are no nodes" = true ∨
       infixOfS "doesn’t have label" s = true))
  ∧ (∀ env cat, is_stuck s = false → match_node env cat s = none) := by
  by_cases h1 : startsWithS s "Waiting for" <;>
  by_cases h2 : startsWithS s "All nodes of label" <;>
  by_cases h3 : endsWithS s "is offline" <;>
  by_cases h4 : startsWithS s "There are no nodes" <;>
  by_cases h5 : infixOfS "doesn’t have label" s <;>
  simp [is_stuck, busy_summary, offline_label_summary, offline_node_summary,
    offline_node_label_summary, node_does_not_have_label, matchProcessor, match_node,
    h1, h2, h3, h4, h5]

theorem c6_witness : match_node env0 [] "nothing recognizable" = none :=
  (c6_stuck_patterns_and_dispatch "nothing recognizable").2.2 env0 [] (by decide)

/-- Claim C7 (corrected): refutation of the claim as stated. The claim
says no duplicate report is issued for a pass in which the node's idle
state is unchanged from the previous poll; but `check_idling` posts the
node's current state on every pass, so two consecutive passes that both
observe idle=true produce two mark-idle reports for the same node. -/
theorem c7_counterexample :
    check_idling [("node__u1", true)] ++ check_idling [("node__u1", true)] =
      [("u1", IdleReport.idle), ("u1", IdleReport.idle)] := by decide

/-- Claim C7 (corrected): the amended claim. Observing idle=true and then
idle=false on a controller-managed node produces one mark-idle report and
then one mark-active report; however each pass reports the node's current
state unconditionally, so a pass with unchanged state re-issues the same
(registry-idempotent) report rather than suppressing it. -/
theorem c7_idle_active_reports (name : String) (b : Bool)
    (h : 1 < (splitDunderS name).length) :
    check_idling [(name, b)] =
      [((splitDunderS name).getLastD "", if b then IdleReport.idle else IdleReport.active)]
  ∧ check_idling [(name, true)] ++ check_idling [(name, false)] =
      [((splitDunderS name).getLastD "", IdleReport.idle),
       ((splitDunderS name).getLastD "", IdleReport.active)] := by
  constructor <;> simp [check_idling, h]

theorem c7_witness :
    check_idling [("node__u1", true)] =
      [((splitDunderS "node__u1").getLastD "",
        if true then IdleReport.idle else IdleReport.active)]
  ∧ check_idling [("node__u1", true)] ++ check_idling [("node__u1", false)] =
      [((splitDunderS "node__u1").getLastD "", IdleReport.idle),
       ((splitDunderS "node__u1").getLastD "", IdleReport.active)] :=
  c7_idle_active_reports "node__u1" true (by decide)

/-- Claim C8 (code_bug). An empty snapshot produces zero creation
requests, and a resolved task contributes one aggregated request; but the
claim's "exactly one creation request per distinct resolved node-type"
fails on the code: a stuck task that resolves to nothing, whose job info
is unavailable and whose job name has no `=` (any ordinary job name),
makes `match_node_from_matrix_job_name` raise `IndexError`
(`label.split("=")[1]`), aborting the whole pass — the already-resolved
`centos6` demand is dropped and zero requests are posted. -/
theorem c8_matrix_name_crash_drops_requests :
    check_queue env0 cat8 (some []) = some [] ∧
    resolve_task env0 cat8 t8a = ExnOr.ok (some "centos6") ∧
    check_queue env0 cat8 (some [t8a]) = some [("centos6", 1)] ∧
    is_stuck "wigwam is offline" = true ∧
    job_from_url t8b.url = "myjob" ∧
    match_node_from_matrix_job_name cat8 "myjob" = ExnOr.exn ∧
    check_queue env0 cat8 (some [t8a, t8b]) = none := by decide

/-- Claim C9 (confirmed). The volume-availability wait always terminates:
for every initial state and every sequence of observed states it performs
at most 11 polls (the try counter's ceiling check is `tries > 10`), and it
returns normally (`True`, "continue anyway") no matter what the final
state is. -/
theorem c9_volume_wait_bounded (v0 : VolState) (states : Nat → VolState) (b : Bool) :
    (wait_until_volume_available v0 states b).1 ≤ 11 ∧
    (wait_until_volume_available v0 states b).2 = true := by
  have hle : ∀ (n tries : Nat) (cur : VolState), 11 - tries ≤ n → tries ≤ 10 →
      (waitGo states (okStates b) tries cur).1 ≤ 11 := by
    intro n
    induction n with
    | zero => intro tries cur hn h10; omega
    | succ n ih =>
      intro tries cur hn h10
      unfold waitGo
      by_cases hok : cur ∈ okStates b
      · rw [if_pos hok]
        by_cases hc : 10 < tries + 1
        · rw [dif_pos hc]
          show tries + 1 ≤ 11
          omega
        · rw [dif_neg hc]
          by_cases hnf : states (tries + 1) = VolState.str "notfound"
          · rw [if_pos hnf]
            show tries + 1 ≤ 11
            omega
          · rw [if_neg hnf]
            exact ih (tries + 1) _ (by omega) (by omega)
      · rw [if_neg hok]
        show tries ≤ 11
        omega
  exact ⟨hle 11 0 v0 (by omega) (by omega), rfl⟩

/-- Claim C10 (confirmed). Matching a node type from a required-label list
returns no match when the list is empty (the code's falsy guard), even
though the inner `labels_exist` check is vacuously true of every catalog
entry — so matrix-job inference that yields no labels never selects an
arbitrary node type. -/
theorem c10_empty_labels_no_match (cat : Catalog) :
    match_node_from_labels cat [] = none ∧
    cat.all (fun p => labels_exist [] p.2) = true := by
  exact ⟨rfl, by simp [labels_exist]⟩

end Mita
